import Mathlib

/-!
Shallow embedding of `src/scout.py` (Arbitrage Scout Bot).

The source is a single Python script with three stages:
  1. `scrape_ebay_listings` — fetch an eBay search page once and extract up to
     `NUM_LISTINGS` listings, filtering titles and prices;
  2. `analyse_all` / `_parse_batch_response` — one batched oracle call whose
     JSON-array response is turned into `ProfitAnalysis` records;
  3. `send_discord_notification` — one embed per profitable analysis;
with `run_scout_cycle` sequencing the three and `scout_loop` repeating the
cycle forever, catching any exception per iteration.

Machine floats of the source are modelled as exact rationals (`ℚ`); Python
exceptions that the source does not catch are modelled with `Except`.
-/

namespace Scout

/-! ### Configuration constants (scout.py lines 46-50) -/

def MAX_BUY_PRICE : ℚ := 15
def MIN_NET_PROFIT : ℚ := 10
def FEE_RATE : ℚ := 15 / 100
def NUM_LISTINGS : ℕ := 10

/-! ### Data models (scout.py lines 75-89) -/

structure Listing where
  title : String
  price : ℚ
  image_url : String
  item_url : String
deriving Repr, DecidableEq

structure ProfitAnalysis where
  listing : Listing
  resale_price : ℚ
  fees : ℚ
  net_profit : ℚ
  reasoning : String
deriving Repr, DecidableEq

/-! ### Price parsing (scout.py lines 125-131)

`price_text.replace(".", "").replace(",", ".")` followed by
`re.search(r"([\d]+[.,]?\d*)", …)` and `float` on the first match.
The regex is greedy with no backtracking needed: a maximal digit run,
optionally one of `.`/`,`, then a maximal digit run. -/

def digitsToNat (cs : List Char) : ℕ :=
  cs.foldl (fun n c => 10 * n + (c.toNat - '0'.toNat)) 0

/-- `str.replace(".", "")`: drop every dot. -/
def stripDots (s : String) : String :=
  ⟨s.data.filter (fun c => c ≠ '.')⟩

/-- `str.replace(",", ".")`: turn every comma into a dot. -/
def commasToDots (s : String) : String :=
  ⟨s.data.map (fun c => if c = ',' then '.' else c)⟩

/-- The match of `[\d]+[.,]?\d*` anchored at the head of `cs`, when the head
is a digit: a maximal digit run, then optionally one separator and a second
maximal digit run. -/
def matchAt (cs : List Char) : Option (List Char) :=
  let ds := cs.takeWhile Char.isDigit
  if ds.isEmpty then none
  else
    match cs.drop ds.length with
    | c :: rest =>
        if c = '.' ∨ c = ',' then some (ds ++ c :: rest.takeWhile Char.isDigit)
        else some ds
    | [] => some ds

/-- `re.search`: the leftmost position where the pattern matches is the first
digit of the string, since the pattern must start with a digit. -/
def searchPriceRe (s : String) : Option (List Char) :=
  matchAt (s.data.dropWhile (fun c => ¬ c.isDigit))

/-- `float` applied to a regex match `digits [sep digits]`, reading the
separator as the decimal point.  (After the two `replace` calls the separator
can only be `'.'`, which is exactly what Python's `float` accepts.)  The
value `ip + fr / 10 ^ |fr|` is built with `mkRat` in one step. -/
def matchValue (cs : List Char) : ℚ :=
  let ip := cs.takeWhile Char.isDigit
  match cs.drop ip.length with
  | [] => mkRat (digitsToNat ip) 1
  | _ :: fr => mkRat (digitsToNat ip * 10 ^ fr.length + digitsToNat fr) (10 ^ fr.length)

/-- Lines 126-131 of scout.py: normalize separators, search for the first
price-shaped token, convert it to a number.  `none` models "no match →
`continue` (listing skipped)". -/
def parse_price (price_text : String) : Option ℚ :=
  (searchPriceRe (commasToDots (stripDots price_text))).map matchValue

/-! ### Listing extraction (scout.py lines 104-150)

An element of the parsed page (`li.s-item`) is modelled by the pieces of it
the loop body reads: the stripped text of `.s-item__title` and
`.s-item__price` (absent when `select_one` returns `None`), the `src` /
`data-src` attributes of the image element, and the `href` of the link
element. -/

structure ImgEl where
  src : Option String
  data_src : Option String
deriving Repr, DecidableEq

structure RawItem where
  title_el : Option String
  price_el : Option String
  img_el : Option ImgEl
  link_el : Option String
deriving Repr, DecidableEq

/-- Python `a or b` on strings: first non-empty operand. -/
def pyOrStr (a b : String) : String :=
  if a ≠ "" then a else b

/-- Python `str.lower()`, character by character (the filtered titles are
ASCII, where `Char.toLower` and Python agree). -/
def pyLower (s : String) : String :=
  ⟨s.data.map Char.toLower⟩

/-- One iteration of the `for item in items` body (lines 113-147): `none`
means `continue` (the candidate is dropped), `some l` means `l` is appended. -/
def processItem (it : RawItem) : Option Listing :=
  match it.title_el with
  | none => none
  | some title =>
    if pyLower title = "shop on ebay" ∨ pyLower title = "ergebnisse" ∨
        pyLower title = "" then none
    else
      match it.price_el with
      | none => none
      | some price_text =>
        match parse_price price_text with
        | none => none
        | some price =>
          if price ≤ 0 ∨ price > MAX_BUY_PRICE then none
          else
            let image_url :=
              match it.img_el with
              | none => ""
              | some img =>
                  pyOrStr (pyOrStr (img.src.getD "") (img.data_src.getD "")) ""
            let item_url := it.link_el.getD ""
            some ⟨title, price, image_url, item_url⟩

/-- The extraction loop (lines 109-147): `break` once `NUM_LISTINGS`
listings are collected, otherwise process the next item. -/
def scrapeLoop : List RawItem → List Listing → List Listing
  | [], acc => acc
  | it :: rest, acc =>
      if NUM_LISTINGS ≤ acc.length then acc
      else
        match processItem it with
        | none => scrapeLoop rest acc
        | some l => scrapeLoop rest (acc ++ [l])

/-- `scrape_ebay_listings` applied to an already-fetched, already-parsed
page (the `soup.select("li.s-item")` result). -/
def scrape_items (items : List RawItem) : List Listing :=
  scrapeLoop items []

/-- Outcome of one `requests.get` attempt (lines 97-102): a parsed page, or
a `requests.RequestException`. -/
inductive FetchResult where
  | ok (items : List RawItem)
  | err
deriving Repr, DecidableEq

/-- `scrape_ebay_listings` with the transport made explicit.  The function is
given the outcome every hypothetical attempt would have, but the source calls
`requests.get` exactly once, so only attempt `0` is consulted; on failure it
prints and returns `[]` (lines 100-102). -/
def scrape_ebay_listings (attempts : ℕ → FetchResult) : List Listing :=
  match attempts 0 with
  | .err => []
  | .ok items => scrape_items items

/-! ### Oracle response parsing (scout.py lines 179-230)

A decoded JSON entry is a Python dict; the loop reads its `"id"`,
`"resale_price"` and `"reasoning"` fields.  A field value is a number or a
string (`PyVal`); an absent field makes `dict.get` return the stated
default.  `int(...)` and `float(...)` raise `ValueError` on a non-numeric
string, and nothing inside the loop catches that, so the whole call
aborts: this is the `Except` layer. -/

inductive PyVal where
  | num (q : ℚ)
  | str (s : String)
deriving Repr, DecidableEq

structure OracleEntry where
  id : Option PyVal
  resale_price : Option PyVal
  reasoning : Option PyVal
deriving Repr, DecidableEq

/-- An integer literal `[sign] digits`, the string form Python's `int`
accepts. -/
def parseIntLiteral (cs : List Char) : Option ℤ :=
  let (sgn, body) : ℤ × List Char :=
    match cs with
    | '-' :: t => (-1, t)
    | '+' :: t => (1, t)
    | _ => (1, cs)
  if body.isEmpty ∨ ¬ body.all Char.isDigit then none
  else some (sgn * digitsToNat body)

/-- Python `int(v)`: an `int`/`float` is truncated toward zero; a string must
be an integer literal, else `ValueError` (`none`). -/
def pyInt : PyVal → Option ℤ
  | .num q => some (q.num / (q.den : ℤ))
  | .str s => parseIntLiteral s.data

/-- A decimal literal `[sign] digits [. digits]`, the string forms Python's
`float` accepts that a JSON number or price field can take. -/
def parseDecimal (cs : List Char) : Option ℚ :=
  let (sgn, body) : ℤ × List Char :=
    match cs with
    | '-' :: t => (-1, t)
    | '+' :: t => (1, t)
    | _ => (1, cs)
  let ip := body.takeWhile Char.isDigit
  match body.drop ip.length with
  | [] => if ip.isEmpty then none else some (mkRat (sgn * digitsToNat ip) 1)
  | '.' :: fr =>
      let fd := fr.takeWhile Char.isDigit
      if ¬ (fr.drop fd.length).isEmpty then none
      else if ip.isEmpty ∧ fd.isEmpty then none
      else some (mkRat (sgn * (digitsToNat ip * 10 ^ fd.length + digitsToNat fd))
                       (10 ^ fd.length))
  | _ => none

/-- Python `float(v)`: a number is itself; a string must be a decimal
literal, else `ValueError` (`none`). -/
def pyFloat : PyVal → Option ℚ
  | .num q => some q
  | .str s => parseDecimal s.data

/-- Python `str(v)` (never fails; the exact rendering of numbers is
immaterial to every claim). -/
def pyStr : PyVal → String
  | .num q => toString q
  | .str s => s

/-- Python `round(x, 2)`: round to 2 decimal places, ties to even. -/
def round2 (q : ℚ) : ℚ :=
  let x := q * 100
  let f := ⌊x⌋
  let i : ℤ :=
    if x - f < 1 / 2 then f
    else if x - f > 1 / 2 then f + 1
    else if f % 2 = 0 then f else f + 1
  (i : ℚ) / 100

/-- The exceptions the loop body can raise: `ValueError` from `int()` /
`float()` on a non-numeric string, `IndexError` from `listings[idx]`. -/
inductive PyErr where
  | valueError
  | indexError
deriving Repr, DecidableEq

/-- Lines 210-212 of scout.py:
`net_profit = resale_price * (1 - FEE_RATE) - listing.price`. -/
def net_profit (resale_price price : ℚ) : ℚ :=
  resale_price * (1 - FEE_RATE) - price

/-- The `for entry in items_data` loop of `_parse_batch_response`
(lines 197-228), accumulating `profitable`.  Faithful to the source order:
convert `id`, bounds-check, index, convert `resale_price`, convert
`reasoning`, drop non-positive estimates, compute profit, keep the entry
when `net_profit >= MIN_NET_PROFIT`. -/
def parseEntries (listings : List Listing) :
    List OracleEntry → List ProfitAnalysis → Except PyErr (List ProfitAnalysis)
  | [], acc => .ok acc
  | entry :: rest, acc =>
      match pyInt (entry.id.getD (.num 0)) with
      | none => .error .valueError
      | some i =>
        let idx := i - 1
        if idx < 0 ∨ (listings.length : ℤ) ≤ idx then parseEntries listings rest acc
        else
          match listings.get? idx.toNat with
          | none => .error .indexError
          | some listing =>
            match pyFloat (entry.resale_price.getD (.num 0)) with
            | none => .error .valueError
            | some resale_price =>
              let reasoning := pyStr (entry.reasoning.getD (.str ""))
              if resale_price ≤ 0 then parseEntries listings rest acc
              else
                let fees := resale_price * FEE_RATE
                if MIN_NET_PROFIT ≤ net_profit resale_price listing.price then
                  parseEntries listings rest
                    (acc ++ [⟨listing, resale_price, round2 fees,
                              round2 (net_profit resale_price listing.price),
                              reasoning⟩])
                else parseEntries listings rest acc

/-- `_parse_batch_response` (lines 179-230).  The argument stands for the
result of the guarded regex search plus `json.loads` on the raw model
output: `none` when no JSON array was found or it failed to decode (the
function returns `[]` in both cases), `some entries` for a decoded array. -/
def parse_batch_response (decoded : Option (List OracleEntry))
    (listings : List Listing) : Except PyErr (List ProfitAnalysis) :=
  match decoded with
  | none => .ok []
  | some items_data => parseEntries listings items_data []

/-- Outcome of one `client.text_generation` attempt: a (decoded) response,
or an exception. -/
inductive OracleResult where
  | ok (decoded : Option (List OracleEntry))
  | err
deriving Repr, DecidableEq

/-- `analyse_all` (lines 233-258): no token → `[]`; the single inference
attempt fails → `[]` (only attempt `0` is ever consulted — the source calls
`text_generation` once); otherwise parse the response.  Exceptions raised by
`_parse_batch_response` are not caught here. -/
def analyse_all (hf_token : String) (attempts : ℕ → OracleResult)
    (listings : List Listing) : Except PyErr (List ProfitAnalysis) :=
  if hf_token = "" then .ok []
  else
    match attempts 0 with
    | .err => .ok []
    | .ok decoded => parse_batch_response decoded listings

/-- `send_discord_notification` (lines 262-323), abstracted to the list of
embeds actually dispatched: none without a webhook URL, otherwise one per
analysis, in order.  No membership check against any store precedes a
dispatch — the function has no other input. -/
def send_discord_notification (webhook_url : String)
    (analyses : List ProfitAnalysis) : List ProfitAnalysis :=
  if webhook_url = "" then [] else analyses

/-- The collaborators one cycle consults. -/
structure Env where
  fetchAttempts : ℕ → FetchResult
  hf_token : String
  oracleAttempts : ℕ → OracleResult
  webhook_url : String

/-- `run_scout_cycle` (lines 327-344), abstracted to the notifications it
emits; an uncaught exception escapes as `.error`. -/
def run_scout_cycle (env : Env) : Except PyErr (List ProfitAnalysis) :=
  let listings := scrape_ebay_listings env.fetchAttempts
  if listings.isEmpty then .ok []
  else
    match analyse_all env.hf_token env.oracleAttempts listings with
    | .error e => .error e
    | .ok profitable =>
        if profitable.isEmpty then .ok []
        else .ok (send_discord_notification env.webhook_url profitable)

/-- One iteration of `scout_loop` (lines 347-355): the cycle's
notifications, with any exception caught (nothing is emitted then). -/
def cycleNotifs (env : Env) : List ProfitAnalysis :=
  match run_scout_cycle env with
  | .ok ns => ns
  | .error _ => []

/-- The notifications emitted by the first `n` iterations of `scout_loop`.
The environment is the same every iteration: the script keeps no state
between cycles. -/
def scout_loop_notifs (env : Env) : ℕ → List ProfitAnalysis
  | 0 => []
  | n + 1 => scout_loop_notifs env n ++ cycleNotifs env

/-- The identifiers (`item_url`) notified in the first `n` iterations. -/
def notifiedIds (env : Env) (n : ℕ) : List String :=
  (scout_loop_notifs env n).map (fun a => a.listing.item_url)

/-! ### Concrete fixtures used by individual claims -/

/-- A well-formed scraped item: valid title, parsable price 12.00 €. -/
def legoItem : RawItem :=
  ⟨some "Lego Star Wars Set", some "12,00 €", none, some "u"⟩

/-- The listing `legoItem` extracts to. -/
def legoListing : Listing :=
  ⟨"Lego Star Wars Set", 12, "", "u"⟩

/-- An item whose title contains the accessory-noise substring `"case"`. -/
def caseItem : RawItem :=
  ⟨some "iPhone case", some "5,00 €", none, none⟩

/-- A well-formed item with no image element and no link element. -/
def bareItem : RawItem :=
  ⟨some "Lego Star Wars Set", some "12,00 €", none, none⟩

/-- An oracle entry with integer id 1 and the given numeric resale price. -/
def entryAt (resale : ℚ) : OracleEntry :=
  ⟨some (.num 1), some (.num resale), none⟩

/-- A well-formed oracle entry for `legoListing`: id 1, resale 35. -/
def goodEntry : OracleEntry :=
  ⟨some (.num 1), some (.num 35), some (.str "sells well")⟩

/-- A malformed oracle entry: its id is a non-numeric string. -/
def strIdEntry : OracleEntry :=
  ⟨some (.str "x"), some (.num 35), none⟩

/-- An oracle entry whose `resale_price` is non-positive. -/
def zeroResaleEntry : OracleEntry :=
  ⟨some (.num 1), some (.num 0), none⟩

/-- The listing of the spec's threshold-boundary test: purchase price 10. -/
def tenListing : Listing :=
  ⟨"t", 10, "", ""⟩

/-- A transport that fails on the first attempt and would succeed on every
retry. -/
def failThenOkFetch : ℕ → FetchResult :=
  fun n => if n = 0 then .err else .ok [legoItem]

/-- A fixed environment in which every cycle finds `legoListing` profitable:
net profit 35 · 0.85 − 12 = 17.75 ≥ 10. -/
def legoEnv : Env :=
  ⟨fun _ => .ok [legoItem], "tok", fun _ => .ok (some [goodEntry]), "hook"⟩

/-! ## Helper lemmas -/

/-- Everything true of a listing that survives the loop body: its
(lower-cased) title is none of the three filtered strings, its price is in
`(0, MAX_BUY_PRICE]`, and a missing image/link element yields `""`. -/
theorem processItem_spec (it : RawItem) (l : Listing)
    (h : processItem it = some l) :
    pyLower l.title ≠ "shop on ebay" ∧ pyLower l.title ≠ "ergebnisse" ∧
      pyLower l.title ≠ "" ∧ 0 < l.price ∧ l.price ≤ MAX_BUY_PRICE ∧
      (it.img_el = none → l.image_url = "") ∧
      (it.link_el = none → l.item_url = "") := by
  rcases it with ⟨tEl, pEl, iEl, lEl⟩
  cases tEl with
  | none => simp [processItem] at h
  | some title =>
    simp only [processItem] at h
    split at h
    · exact absurd h (by simp)
    · cases pEl with
      | none => simp at h
      | some ptext =>
        simp only at h
        cases hpp : parse_price ptext with
        | none => rw [hpp] at h; simp at h
        | some price =>
          rw [hpp] at h
          simp only at h
          split at h
          · exact absurd h (by simp)
          · rename_i hTitle hPrice
            push_neg at hTitle hPrice
            cases h
            refine ⟨hTitle.1, hTitle.2.1, hTitle.2.2, ?_, hPrice.2, ?_, ?_⟩
            · exact hPrice.1
            · intro hi; simp only at hi; rw [hi]
            · intro hl; simp only at hl; rw [hl]; rfl

theorem scrapeLoop_stop (items : List RawItem) (acc : List Listing)
    (h : NUM_LISTINGS ≤ acc.length) : scrapeLoop items acc = acc := by
  cases items with
  | nil => rfl
  | cons it rest => simp [scrapeLoop, h]

theorem scrapeLoop_length_le (items : List RawItem) :
    ∀ acc : List Listing, acc.length ≤ NUM_LISTINGS →
      (scrapeLoop items acc).length ≤ NUM_LISTINGS := by
  induction items with
  | nil => intro acc h; simpa [scrapeLoop] using h
  | cons it rest ih =>
    intro acc h
    simp only [scrapeLoop]
    split
    · exact h
    · rename_i hlt
      cases hp : processItem it with
      | none => exact ih acc h
      | some l =>
        apply ih
        simp only [List.length_append, List.length_singleton]
        omega

theorem scrapeLoop_mem (items : List RawItem) :
    ∀ (acc : List Listing) (l : Listing), l ∈ scrapeLoop items acc →
      l ∈ acc ∨ ∃ it ∈ items, processItem it = some l := by
  induction items with
  | nil => intro acc l h; exact Or.inl (by simpa [scrapeLoop] using h)
  | cons it rest ih =>
    intro acc l h
    simp only [scrapeLoop] at h
    split at h
    · exact Or.inl h
    · cases hp : processItem it with
      | none =>
        rw [hp] at h
        rcases ih acc l h with hacc | ⟨it', hit', hp'⟩
        · exact Or.inl hacc
        · exact Or.inr ⟨it', List.mem_cons_of_mem _ hit', hp'⟩
      | some l' =>
        rw [hp] at h
        rcases ih (acc ++ [l']) l h with hacc | ⟨it', hit', hp'⟩
        · rcases List.mem_append.mp hacc with h1 | h2
          · exact Or.inl h1
          · have : l = l' := by simpa using h2
            exact Or.inr ⟨it, List.mem_cons_self _ _, this ▸ hp⟩
        · exact Or.inr ⟨it', List.mem_cons_of_mem _ hit', hp'⟩

theorem scrape_items_mem (items : List RawItem) (l : Listing)
    (h : l ∈ scrape_items items) : ∃ it ∈ items, processItem it = some l := by
  rcases scrapeLoop_mem items [] l h with hacc | hex
  · exact absurd hacc (List.not_mem_nil l)
  · exact hex

/-- The guard `idx < 0 or idx >= len(listings)` on line 199 makes the index
access on line 202 safe: `parseEntries` never raises `IndexError`. -/
theorem parseEntries_ne_indexError (entries : List OracleEntry) :
    ∀ (listings : List Listing) (acc : List ProfitAnalysis),
      parseEntries listings entries acc ≠ .error .indexError := by
  induction entries with
  | nil => intro listings acc; simp [parseEntries]
  | cons e rest ih =>
    intro listings acc
    simp only [parseEntries]
    cases hpi : pyInt (e.id.getD (.num 0)) with
    | none => simp
    | some i =>
      simp only
      split
      · exact ih listings acc
      · rename_i hguard
        have hlt : (i - 1).toNat < listings.length := by
          push_neg at hguard; omega
        rw [List.get?_eq_get hlt]
        simp only
        cases pyFloat (e.resale_price.getD (.num 0)) with
        | none => simp
        | some resale =>
          simp only
          split
          · exact ih listings acc
          · split
            · exact ih listings _
            · exact ih listings acc

/-- An entry whose id converts to an integer outside `1..len(listings)` is
skipped: the loop's result on it is the result on the remaining entries. -/
theorem parseEntries_skip_out_of_range (listings : List Listing)
    (e : OracleEntry) (rest : List OracleEntry) (acc : List ProfitAnalysis)
    (i : ℤ) (hi : pyInt (e.id.getD (.num 0)) = some i)
    (hout : i - 1 < 0 ∨ (listings.length : ℤ) ≤ i - 1) :
    parseEntries listings (e :: rest) acc = parseEntries listings rest acc := by
  simp only [parseEntries, hi]
  rw [if_pos hout]

theorem parseEntries_nil (listings : List Listing) (acc : List ProfitAnalysis) :
    parseEntries listings [] acc = .ok acc := rfl

/-- One loop step on an entry whose id has no integer conversion:
`int()` raises `ValueError` and the whole call aborts. -/
theorem parseEntries_cons_raise (listings : List Listing) (e : OracleEntry)
    (rest : List OracleEntry) (acc : List ProfitAnalysis)
    (hpi : pyInt (e.id.getD (.num 0)) = none) :
    parseEntries listings (e :: rest) acc = .error .valueError := by
  simp only [parseEntries, hpi]

/-- One loop step on an in-range entry that clears the profit bar: the
analysis is appended. -/
theorem parseEntries_cons_keep (listings : List Listing) (e : OracleEntry)
    (rest : List OracleEntry) (acc : List ProfitAnalysis) (i : ℤ)
    (listing : Listing) (resale : ℚ)
    (hpi : pyInt (e.id.getD (.num 0)) = some i)
    (hin : ¬ (i - 1 < 0 ∨ (listings.length : ℤ) ≤ i - 1))
    (hget : listings.get? (i - 1).toNat = some listing)
    (hres : pyFloat (e.resale_price.getD (.num 0)) = some resale)
    (hpos : ¬ resale ≤ 0)
    (hkeep : MIN_NET_PROFIT ≤ net_profit resale listing.price) :
    parseEntries listings (e :: rest) acc =
      parseEntries listings rest
        (acc ++ [⟨listing, resale, round2 (resale * FEE_RATE),
                  round2 (net_profit resale listing.price),
                  pyStr (e.reasoning.getD (.str ""))⟩]) := by
  simp only [parseEntries, hpi, hget, hres]
  rw [if_neg hin, if_neg hpos, if_pos hkeep]

/-- One loop step on an in-range entry below the profit bar: skipped. -/
theorem parseEntries_cons_below (listings : List Listing) (e : OracleEntry)
    (rest : List OracleEntry) (acc : List ProfitAnalysis) (i : ℤ)
    (listing : Listing) (resale : ℚ)
    (hpi : pyInt (e.id.getD (.num 0)) = some i)
    (hin : ¬ (i - 1 < 0 ∨ (listings.length : ℤ) ≤ i - 1))
    (hget : listings.get? (i - 1).toNat = some listing)
    (hres : pyFloat (e.resale_price.getD (.num 0)) = some resale)
    (hpos : ¬ resale ≤ 0)
    (hdrop : ¬ MIN_NET_PROFIT ≤ net_profit resale listing.price) :
    parseEntries listings (e :: rest) acc = parseEntries listings rest acc := by
  simp only [parseEntries, hpi, hget, hres]
  rw [if_neg hin, if_neg hpos, if_neg hdrop]

/-- One loop step on an in-range entry with a non-positive resale estimate:
skipped. -/
theorem parseEntries_cons_nonpos (listings : List Listing) (e : OracleEntry)
    (rest : List OracleEntry) (acc : List ProfitAnalysis) (i : ℤ)
    (listing : Listing) (resale : ℚ)
    (hpi : pyInt (e.id.getD (.num 0)) = some i)
    (hin : ¬ (i - 1 < 0 ∨ (listings.length : ℤ) ≤ i - 1))
    (hget : listings.get? (i - 1).toNat = some listing)
    (hres : pyFloat (e.resale_price.getD (.num 0)) = some resale)
    (hnp : resale ≤ 0) :
    parseEntries listings (e :: rest) acc = parseEntries listings rest acc := by
  simp only [parseEntries, hpi, hget, hres]
  rw [if_neg hin, if_pos hnp]

/-- Evaluation of the parse loop on the well-formed `goodEntry` against the
one-listing batch `[legoListing]`: net profit `35 · 0.85 − 12 = 17.75`,
fees `5.25`. -/
theorem parse_goodEntry_eval :
    parseEntries [legoListing] [goodEntry] [] =
      .ok [⟨legoListing, 35, 21 / 4, 71 / 4, "sells well"⟩] := by
  rw [parseEntries_cons_keep [legoListing] goodEntry [] [] 1 legoListing 35
      (by decide) (by decide) (by decide) (by decide) (by norm_num)
      (by norm_num [net_profit, FEE_RATE, MIN_NET_PROFIT, legoListing])]
  rw [parseEntries_nil]
  norm_num [round2, net_profit, FEE_RATE, legoListing, goodEntry, pyStr]

/-! ## Claims -/

/-- C1 (counterexample): the rightmost-separator rule fails on the code:
`"1,234.56"` parses to `1.23456`, not `1234.56` — the code deletes every
dot before turning commas into dots, so a dot-decimal amount with a comma
thousands separator is misread. -/
theorem c1_locale_policy_counterexample :
    parse_price "1,234.56" = some (3858 / 3125) ∧
      ((3858 : ℚ) / 3125 ≠ 123456 / 100) := by
  have h : parse_price "1,234.56" = some (mkRat 123456 100000) := by decide
  refine ⟨?_, by norm_num⟩
  rw [h, Rat.mkRat_eq_div]
  norm_num

/-- C1 (amended): the parser deletes every `'.'`, then turns every `','`
into `'.'`, then reads the first `digits[.digits]` token.  Hence
`"1.234,56"` → `1234.56`, `"29,99 €"` → `29.99`, a digit-free string gives
no price (the listing is skipped, no error), but `"1,234.56"` → `1.23456`
rather than `1234.56`. -/
theorem c1_locale_policy_amended :
    parse_price "1.234,56" = some (123456 / 100) ∧
      parse_price "29,99 €" = some (2999 / 100) ∧
      parse_price "no digits here" = none ∧
      parse_price "1,234.56" = some (123456 / 100000) := by
  have h1 : parse_price "1.234,56" = some (mkRat 123456 100) := by decide
  have h2 : parse_price "29,99 €" = some (mkRat 2999 100) := by decide
  have h4 : parse_price "1,234.56" = some (mkRat 123456 100000) := by decide
  refine ⟨?_, ?_, by decide, ?_⟩
  · rw [h1, Rat.mkRat_eq_div]; norm_num
  · rw [h2, Rat.mkRat_eq_div]; norm_num
  · rw [h4, Rat.mkRat_eq_div]; norm_num

/-- C2 (counterexample): there is no history store.  In a fixed environment
where every cycle finds the same profitable listing (identifier `"u"`), two
iterations of the scout loop notify `"u"` twice: a second notification IS
emitted for an already-alerted identifier, and no membership check precedes
the dispatch (the notification step has no other input than the analyses). -/
theorem c2_dedup_counterexample : notifiedIds legoEnv 2 = ["u", "u"] := by
  have ha : analyse_all legoEnv.hf_token legoEnv.oracleAttempts [legoListing] =
      .ok [⟨legoListing, 35, 21 / 4, 71 / 4, "sells well"⟩] := by
    rw [analyse_all, if_neg (by decide)]
    show parse_batch_response (some [goodEntry]) [legoListing] = _
    rw [parse_batch_response]
    exact parse_goodEntry_eval
  have hrun : run_scout_cycle legoEnv =
      .ok [⟨legoListing, 35, 21 / 4, 71 / 4, "sells well"⟩] := by
    have hs : scrape_ebay_listings legoEnv.fetchAttempts = [legoListing] := by
      decide
    simp only [run_scout_cycle, hs, ha]
    rfl
  have hc : cycleNotifs legoEnv =
      [⟨legoListing, 35, 21 / 4, 71 / 4, "sells well"⟩] := by
    rw [cycleNotifs, hrun]
  simp only [notifiedIds, scout_loop_notifs, hc]
  rfl

/-- C2 (amended): the program records nothing and checks nothing before
notifying: over `n` loop iterations in a fixed environment, every
identifier is notified exactly `n` times as often as in a single cycle —
an identifier alerted once is re-alerted every following cycle, not
suppressed. -/
theorem c2_no_dedup_amended (env : Env) (u : String) :
    ∀ n : ℕ, (notifiedIds env n).count u =
      n * ((cycleNotifs env).map (fun a => a.listing.item_url)).count u := by
  intro n
  induction n with
  | zero => simp [notifiedIds, scout_loop_notifs]
  | succ n ih =>
    rw [notifiedIds] at ih
    simp only [notifiedIds, scout_loop_notifs, List.map_append, List.count_append]
    rw [ih]
    ring

/-- C3 (counterexample): the claimed boundary is wrong for the code.  At
`resale = 17.65` and purchase price 10 the claim says the decision is
actionable (`17.65 ≥ 17.65`), but the code compares the unrounded
`17.65 · 0.85 − 10 = 5.0025` against its fixed `MIN_NET_PROFIT = 10` and
produces no analysis. -/
theorem c3_threshold_counterexample :
    ((1765 : ℚ) / 100 ≤ 353 / 20) ∧
      parse_batch_response (some [entryAt (353 / 20)]) [tenListing] = .ok [] := by
  refine ⟨by norm_num, ?_⟩
  rw [parse_batch_response]
  rw [parseEntries_cons_below [tenListing] (entryAt (353 / 20)) [] [] 1
      tenListing (353 / 20) (by decide) (by decide) (by decide) rfl
      (by norm_num)
      (by norm_num [net_profit, FEE_RATE, MIN_NET_PROFIT, tenListing])]
  rfl

/-- C3 (amended): the decision compares the UNROUNDED net profit
`resale · (1 − 0.15) − price` against the fixed threshold
`MIN_NET_PROFIT = 10` (not a `min_profit` parameter of 5), boundary
inclusive; rounding to two decimals applies only to the stored `fees` and
`net_profit` fields.  For purchase price 10 an entry is kept iff
`resale ≥ 400/17` (≈ 23.53). -/
theorem c3_threshold_amended (resale : ℚ) (h : 0 < resale) :
    (MIN_NET_PROFIT ≤ net_profit resale tenListing.price ↔
        400 / 17 ≤ resale) ∧
      (parse_batch_response (some [entryAt resale]) [tenListing] =
        if 400 / 17 ≤ resale then
          .ok [⟨tenListing, resale, round2 (resale * FEE_RATE),
                round2 (net_profit resale tenListing.price), ""⟩]
        else .ok []) := by
  have hiff : MIN_NET_PROFIT ≤ net_profit resale tenListing.price ↔
      400 / 17 ≤ resale := by
    simp only [net_profit, FEE_RATE, MIN_NET_PROFIT, tenListing]
    constructor <;> intro h1 <;> nlinarith
  refine ⟨hiff, ?_⟩
  rw [parse_batch_response]
  by_cases hc : 400 / 17 ≤ resale
  · rw [if_pos hc]
    rw [parseEntries_cons_keep [tenListing] (entryAt resale) [] [] 1
        tenListing resale rfl (by decide) (by decide) rfl
        (not_le.mpr h) (hiff.mpr hc)]
    rfl
  · rw [if_neg hc]
    rw [parseEntries_cons_below [tenListing] (entryAt resale) [] [] 1
        tenListing resale rfl (by decide) (by decide) rfl
        (not_le.mpr h) (fun hk => hc (hiff.mp hk))]
    rfl

/-- C3 (witness): the amended theorem at the inclusive boundary
`resale = 400/17`. -/
theorem c3_threshold_witness :
    (MIN_NET_PROFIT ≤ net_profit (400 / 17) tenListing.price ↔
        (400 : ℚ) / 17 ≤ 400 / 17) ∧
      (parse_batch_response (some [entryAt (400 / 17)]) [tenListing] =
        if (400 : ℚ) / 17 ≤ 400 / 17 then
          .ok [⟨tenListing, 400 / 17, round2 (400 / 17 * FEE_RATE),
                round2 (net_profit (400 / 17) tenListing.price), ""⟩]
        else .ok []) :=
  c3_threshold_amended (400 / 17) (by norm_num)

/-- C4 (counterexample): one malformed entry aborts the whole batch.  With
a well-formed profitable entry followed by an entry whose id is the
non-numeric string `"x"`, the parser raises `ValueError` and returns
nothing — although the well-formed entry alone produces an analysis. -/
theorem c4_malformed_counterexample :
    parse_batch_response (some [goodEntry, strIdEntry]) [legoListing] =
        .error .valueError ∧
      parse_batch_response (some [goodEntry]) [legoListing] =
        .ok [⟨legoListing, 35, 21 / 4, 71 / 4, "sells well"⟩] := by
  constructor
  · rw [parse_batch_response]
    rw [parseEntries_cons_keep [legoListing] goodEntry [strIdEntry] [] 1
        legoListing 35 (by decide) (by decide) (by decide) (by decide)
        (by norm_num)
        (by norm_num [net_profit, FEE_RATE, MIN_NET_PROFIT, legoListing])]
    exact parseEntries_cons_raise [legoListing] strIdEntry [] _ (by decide)
  · rw [parse_batch_response]
    exact parse_goodEntry_eval

/-- C4 (amended): the loop does tolerate the malformations it was written
for — an out-of-range id or a non-positive resale estimate is skipped and
the remaining entries still processed — but an entry whose id is a
non-numeric string raises an uncaught `ValueError` that discards the whole
batch. -/
theorem c4_skip_policy_amended :
    (∀ (listings : List Listing) (rest : List OracleEntry)
        (acc : List ProfitAnalysis),
        parseEntries listings (zeroResaleEntry :: rest) acc =
          parseEntries listings rest acc) ∧
      (∀ (listings : List Listing) (rest : List OracleEntry)
        (acc : List ProfitAnalysis),
        parseEntries listings (strIdEntry :: rest) acc = .error .valueError) := by
  constructor
  · intro listings rest acc
    cases listings with
    | nil =>
        exact parseEntries_skip_out_of_range [] zeroResaleEntry rest acc 1
          (by decide) (by decide)
    | cons l ls =>
        refine parseEntries_cons_nonpos (l :: ls) zeroResaleEntry rest acc 1 l 0
          (by decide) ?_ rfl rfl le_rfl
        push_neg
        refine ⟨by norm_num, ?_⟩
        simp only [List.length_cons]
        omega
  · intro listings rest acc
    exact parseEntries_cons_raise listings strIdEntry rest acc (by decide)

/-- C5 (counterexample): transport failures are not retried.  With a fetch
that fails on the first attempt and would succeed on every retry — serving
an item whose extraction yields a listing — the scraper returns `[]`: it
consulted only the failed first attempt, so no retry (with or without
backoff) ever happened. -/
theorem c5_retry_counterexample :
    scrape_ebay_listings failThenOkFetch = [] ∧
      failThenOkFetch 1 = .ok [legoItem] ∧
      scrape_items [legoItem] = [legoListing] := by
  exact ⟨rfl, rfl, by decide⟩

/-- C5 (amended): a transport failure is never retried: the fetch and the
oracle call are each attempted exactly once, and on failure the affected
unit of work is skipped by returning an empty result; the skip does not
abort the process — the cycle returns normally with no notifications. -/
theorem c5_no_retry_amended :
    (∀ attempts : ℕ → FetchResult, attempts 0 = .err →
        scrape_ebay_listings attempts = []) ∧
      (∀ (tok : String) (oatt : ℕ → OracleResult) (ls : List Listing),
        oatt 0 = .err → analyse_all tok oatt ls = .ok []) ∧
      (∀ env : Env, env.fetchAttempts 0 = .err → run_scout_cycle env = .ok []) := by
  refine ⟨?_, ?_, ?_⟩
  · intro attempts h
    rw [scrape_ebay_listings, h]
  · intro tok oatt ls h
    rw [analyse_all, h]
    split <;> rfl
  · intro env h
    have hs : scrape_ebay_listings env.fetchAttempts = [] := by
      rw [scrape_ebay_listings, h]
    rw [run_scout_cycle, hs]
    rfl

/-- C5 (witness): the amended theorem at an always-failing transport. -/
theorem c5_no_retry_witness :
    scrape_ebay_listings (fun _ => .err) = [] ∧
      analyse_all "tok" (fun _ => .err) [legoListing] = .ok [] ∧
      run_scout_cycle ⟨fun _ => .err, "tok", fun _ => .err, "hook"⟩ = .ok [] :=
  ⟨c5_no_retry_amended.1 (fun _ => .err) rfl,
   c5_no_retry_amended.2.1 "tok" (fun _ => .err) [legoListing] rfl,
   c5_no_retry_amended.2.2 ⟨fun _ => .err, "tok", fun _ => .err, "hook"⟩ rfl⟩

/-- C6 (counterexample): the denylist of the claim is not implemented.  A
candidate whose title contains the accessory-noise substring `"case"` is
retained: the code only drops the three exact strings `"shop on ebay"`,
`"ergebnisse"`, `""`. -/
theorem c6_denylist_counterexample :
    List.IsInfix "case".data "iPhone case".data ∧
      scrape_items [caseItem] = [⟨"iPhone case", 5, "", ""⟩] := by
  exact ⟨by decide, by decide⟩

/-- C6 (amended): the extractor drops a candidate iff its lower-cased title
is exactly `"shop on ebay"`, `"ergebnisse"` or empty; consequently every
retained listing has a non-empty title that lower-cases to neither of those
two strings.  No substring denylist (pagination, accessory or part noise)
exists. -/
theorem c6_title_filter_amended (items : List RawItem) (l : Listing)
    (h : l ∈ scrape_items items) :
    pyLower l.title ≠ "shop on ebay" ∧ pyLower l.title ≠ "ergebnisse" ∧
      l.title ≠ "" := by
  obtain ⟨it, _, hp⟩ := scrape_items_mem items l h
  obtain ⟨h1, h2, h3, _⟩ := processItem_spec it l hp
  refine ⟨h1, h2, ?_⟩
  intro he
  apply h3
  rw [he]
  rfl

/-- C6 (witness): the amended theorem at the one-item page `[legoItem]`. -/
theorem c6_title_filter_witness :
    pyLower legoListing.title ≠ "shop on ebay" ∧
      pyLower legoListing.title ≠ "ergebnisse" ∧ legoListing.title ≠ "" :=
  c6_title_filter_amended [legoItem] legoListing (by decide)

/-- C7: the extractor returns at most `NUM_LISTINGS` listings; once the cap
is reached the loop appends nothing further (it returns its accumulator
unchanged); and every retained listing has `0 < price ≤ MAX_BUY_PRICE`. -/
theorem c7_cap_and_price_bounds (items : List RawItem) :
    (scrape_items items).length ≤ NUM_LISTINGS ∧
      (∀ acc : List Listing, NUM_LISTINGS ≤ acc.length →
        scrapeLoop items acc = acc) ∧
      (∀ l ∈ scrape_items items, 0 < l.price ∧ l.price ≤ MAX_BUY_PRICE) := by
  refine ⟨scrapeLoop_length_le items [] (by simp), fun acc h => scrapeLoop_stop items acc h, ?_⟩
  intro l hl
  obtain ⟨it, _, hp⟩ := scrape_items_mem items l hl
  obtain ⟨_, _, _, h4, h5, _⟩ := processItem_spec it l hp
  exact ⟨h4, h5⟩

/-- C7 (witness): the cap and price bounds at concrete inputs: a full
accumulator stops the loop, and the extracted `legoListing` is in
`(0, MAX_BUY_PRICE]`. -/
theorem c7_cap_and_price_bounds_witness :
    (0 < legoListing.price ∧ legoListing.price ≤ MAX_BUY_PRICE) ∧
      scrapeLoop [legoItem] (List.replicate 10 legoListing) =
        List.replicate 10 legoListing :=
  ⟨(c7_cap_and_price_bounds [legoItem]).2.2 legoListing (by decide),
   (c7_cap_and_price_bounds [legoItem]).2.1 (List.replicate 10 legoListing)
     (by decide)⟩

/-- C10: an item lacking the image element and the link element still yields
a listing, with `image_url = ""` and `item_url = ""`; and the identifier is
neither normalized nor checked for uniqueness — a page with the same bare
item twice yields two listings with the same empty `item_url`. -/
theorem c10_missing_img_link (it : RawItem) (l : Listing)
    (himg : it.img_el = none) (hlink : it.link_el = none)
    (h : processItem it = some l) :
    (l.image_url = "" ∧ l.item_url = "") ∧
      scrape_items [bareItem, bareItem] =
        [⟨"Lego Star Wars Set", 12, "", ""⟩,
         ⟨"Lego Star Wars Set", 12, "", ""⟩] := by
  obtain ⟨_, _, _, _, _, h6, h7⟩ := processItem_spec it l h
  exact ⟨⟨h6 himg, h7 hlink⟩, by decide⟩

/-- C10 (witness): the theorem at `bareItem` itself. -/
theorem c10_missing_img_link_witness :
    ((⟨"Lego Star Wars Set", 12, "", ""⟩ : Listing).image_url = "" ∧
        (⟨"Lego Star Wars Set", 12, "", ""⟩ : Listing).item_url = "") ∧
      scrape_items [bareItem, bareItem] =
        [⟨"Lego Star Wars Set", 12, "", ""⟩,
         ⟨"Lego Star Wars Set", 12, "", ""⟩] :=
  c10_missing_img_link bareItem ⟨"Lego Star Wars Set", 12, "", ""⟩ rfl rfl
    (by decide)

/-- C8: with the run's fee rate (0.15, which lies in `[0, 1)`), `net_profit`
is strictly increasing in the resale estimate and strictly decreasing in the
purchase price. -/
theorem c8_profit_monotone :
    (0 ≤ FEE_RATE ∧ FEE_RATE < 1) ∧
      (∀ price r1 r2 : ℚ, r1 < r2 →
        net_profit r1 price < net_profit r2 price) ∧
      (∀ resale p1 p2 : ℚ, p1 < p2 →
        net_profit resale p2 < net_profit resale p1) := by
  refine ⟨⟨by norm_num [FEE_RATE], by norm_num [FEE_RATE]⟩, ?_, ?_⟩
  · intro price r1 r2 h
    simp only [net_profit, FEE_RATE]
    nlinarith
  · intro resale p1 p2 h
    simp only [net_profit]
    linarith

/-- C8 (witness): monotonicity at concrete points. -/
theorem c8_profit_monotone_witness :
    net_profit 1 5 < net_profit 2 5 ∧ net_profit 2 6 < net_profit 2 5 :=
  ⟨c8_profit_monotone.2.1 5 1 2 (by norm_num),
   c8_profit_monotone.2.2 2 5 6 (by norm_num)⟩

/-- C9: the oracle-response loop never performs an out-of-bounds listing
access (it cannot return `IndexError`), and an entry whose id converts to an
integer outside `1..len(listings)` — including the default id 0 for a
missing field — is skipped, leaving the result of the remaining entries. -/
theorem c9_stray_id_safe :
    (∀ (listings : List Listing) (entries : List OracleEntry)
        (acc : List ProfitAnalysis),
        parseEntries listings entries acc ≠ .error .indexError) ∧
      (∀ (listings : List Listing) (e : OracleEntry) (rest : List OracleEntry)
        (acc : List ProfitAnalysis) (i : ℤ),
        pyInt (e.id.getD (.num 0)) = some i →
        (i - 1 < 0 ∨ (listings.length : ℤ) ≤ i - 1) →
        parseEntries listings (e :: rest) acc = parseEntries listings rest acc) :=
  ⟨fun listings entries acc => parseEntries_ne_indexError entries listings acc,
   parseEntries_skip_out_of_range⟩

/-- C9 (witness): an entry with stray id 99 against a one-listing batch is
skipped and raises nothing. -/
theorem c9_stray_id_safe_witness :
    parseEntries [legoListing] [⟨some (.num 99), some (.num 35), none⟩] [] =
        parseEntries [legoListing] [] [] ∧
      parseEntries [legoListing] [⟨some (.num 99), some (.num 35), none⟩] [] ≠
        .error .indexError :=
  ⟨c9_stray_id_safe.2 [legoListing] ⟨some (.num 99), some (.num 35), none⟩ [] []
      99 (by decide) (by decide),
   c9_stray_id_safe.1 [legoListing] [⟨some (.num 99), some (.num 35), none⟩] []⟩

end Scout
